import Mathlib

/-!
Verification of the Device Update agent core interface
(src/agent/adu_core_interface/src/adu_core_interface.c and the startup
message helper) against its design specification.

The C code builds JSON documents with the parson library and sends them to
the IoT hub twin. The embedding models JSON values as an inductive type,
parson's `json_object_set_*` as an association-list update that replaces an
existing key in place or appends a fresh one (parson's behaviour), and the
transport as a boolean outcome passed in explicitly.
-/

namespace ADUC

/-- JSON values as the agent builds them with parson: null, numbers, strings
and objects (ordered association lists, as parson keeps insertion order). -/
inductive Json where
  | null : Json
  | num : Int → Json
  | str : String → Json
  | obj : List (String × Json) → Json

/-- Lookup of a key in a parson object's field list. -/
def getKey : List (String × Json) → String → Option Json
  | [], _ => none
  | (k, v) :: rest, key => if k = key then some v else getKey rest key

/-- parson `json_object_set_value` on the field list: replaces the value of
an existing key in place, appends the key otherwise. -/
def setKey : List (String × Json) → String → Json → List (String × Json)
  | [], key, v => [(key, v)]
  | (k, w) :: rest, key, v =>
      if k = key then (key, v) :: rest else (k, w) :: setKey rest key v

/-- Field lookup on a JSON value; `none` on a non-object, as parson's
`json_object_get_value` returns NULL there. -/
def Json.objGet : Json → String → Option Json
  | .obj fields, key => getKey fields key
  | _, _ => none

/-- Field update on a JSON value. The embedding only applies it to objects
(parson's setters fail on a non-object; the agent never takes that path). -/
def Json.objSet : Json → String → Json → Json
  | .obj fields, key, v => .obj (setKey fields key v)
  | j, _, _ => j

/-- Two-level field lookup: `doc.k1.k2`. -/
def Json.objGet2 (j : Json) (k1 k2 : String) : Option Json :=
  match j.objGet k1 with
  | some inner => inner.objGet k2
  | none => none

/-! ## Data model: results, states, actions, workflow objects -/

/-- ADUC_Result: a top-level result code plus a structured extended code
(signed 32-bit in C; the codes the agent stores fit comfortably, overflow
never occurs on them). -/
structure ADUC_Result where
  ResultCode : Int
  ExtendedResultCode : Int
deriving DecidableEq

/-- ADUCITF_State: the reported (device-to-cloud) workflow states. -/
inductive ADUCITF_State where
  | Idle
  | DeploymentInProgress
  | DownloadStarted
  | DownloadSucceeded
  | InstallStarted
  | InstallSucceeded
  | ApplyStarted
  | Failed
deriving DecidableEq

/-- Modelled from the spec: the numeric wire codes of the reported states
(adu_core.h is not among the sources; section 8 scenario S1 gives the codes
for the non-terminal states, Idle is 0, and the Failed code is a distinct
number no claim depends on). -/
def stateCode : ADUCITF_State → Int
  | .Idle => 0
  | .DeploymentInProgress => 3
  | .DownloadStarted => 4
  | .DownloadSucceeded => 5
  | .InstallStarted => 6
  | .InstallSucceeded => 7
  | .ApplyStarted => 8
  | .Failed => 255

/-- ADUCITF_UpdateAction: the desired (cloud-to-device) actions kept by the
model (legacy actions are flattened by the parser, which is out of scope). -/
inductive ADUCITF_UpdateAction where
  | ApplyDeployment
  | Cancel
deriving DecidableEq

/-- Modelled from the spec: the numeric wire codes of the update actions
(adu_core.h is not among the sources; the reporting example in the source
shows `action: 3` for a deployment, and the Cancel code is a distinct
number no claim depends on). -/
def actionCode : ADUCITF_UpdateAction → Int
  | .ApplyDeployment => 3
  | .Cancel => 255

/-- IsNullOrEmpty from string_c_utils: true for a NULL pointer or "". -/
def IsNullOrEmpty : Option String → Bool
  | none => true
  | some s => s = ""

/-- One child step of a workflow: its own result and result details, the
only per-step data the reporting serializer reads
(`workflow_get_result(childHandle)` and
`workflow_peek_result_details(childHandle)`). -/
structure WorkflowStep where
  result : ADUC_Result
  resultDetails : Option String
deriving DecidableEq

/-- Modelled from the spec: the root workflow object held behind the opaque
ADUC_WorkflowHandle (workflow_utils.c is not among the sources; the fields
are the ones of section 3 that the functions under verification read or
write through the workflow_* accessors). -/
structure Workflow where
  id : Option String
  retryTimestamp : Option String
  installedCriteria : Option String
  result : ADUC_Result
  resultDetails : Option String
  steps : List WorkflowStep
deriving DecidableEq

/-- Modelled from the spec: workflow_get_result returns the node's stored
result, a zeroed result on a NULL handle. -/
def workflow_get_result : Option Workflow → ADUC_Result
  | some w => w.result
  | none => { ResultCode := 0, ExtendedResultCode := 0 }

/-- Modelled from the spec: workflow_peek_result_details returns the stored
details string or NULL. -/
def workflow_peek_result_details : Option Workflow → Option String
  | some w => w.resultDetails
  | none => none

/-- Modelled from the spec: workflow_get_children_count returns the number
of child steps, 0 on a NULL handle. -/
def workflow_get_children_count : Option Workflow → Nat
  | some w => w.steps.length
  | none => 0

/-- Modelled from the spec: workflow_get_child returns the i-th child
handle, NULL when out of range or on a NULL handle. -/
def workflow_get_child (h : Option Workflow) (i : Nat) : Option WorkflowStep :=
  match h with
  | some w => w.steps.get? i
  | none => none

/-- Modelled from the spec: workflow_get_id returns the deployment's
workflow id string or NULL. -/
def workflow_get_id : Option Workflow → Option String
  | some w => w.id
  | none => none

/-- Modelled from the spec: workflow_peek_retryTimestamp returns the
service-issued retry nonce or NULL. -/
def workflow_peek_retryTimestamp : Option Workflow → Option String
  | some w => w.retryTimestamp
  | none => none

/-- Modelled from the spec: workflow_get_installed_criteria returns the
target installed-version string or NULL. -/
def workflow_get_installed_criteria : Option Workflow → Option String
  | some w => w.installedCriteria
  | none => none

/-- Modelled from the spec: workflow_set_result stores a result on the
workflow node (a no-op on a NULL handle). -/
def workflow_set_result (h : Option Workflow) (r : ADUC_Result) : Option Workflow :=
  h.map fun w => { w with result := r }

/-- WorkflowPersistenceState: the record restored on startup. The reporting
code reads its ReportingJson (already parsed here, as `json_parse_string`
of the stored text). -/
structure WorkflowPersistenceState where
  ReportingJson : Json

/-- ADUC_WorkflowData: the engine's per-agent state as the core interface
uses it (WorkflowHandle may be NULL; persistenceState is non-NULL only
during startup-idle reporting). -/
structure ADUC_WorkflowData where
  WorkflowHandle : Option Workflow
  CurrentAction : ADUCITF_UpdateAction
  LastReportedState : ADUCITF_State
  persistenceState : Option WorkflowPersistenceState

/-- ADUC_WorkflowData_GetCurrentAction from workflow_data_utils.c. -/
def ADUC_WorkflowData_GetCurrentAction (workflowData : ADUC_WorkflowData) : ADUCITF_UpdateAction :=
  workflowData.CurrentAction

/-- Modelled from the spec: result.h is not among the sources; success codes
are positive (section 3). ADUC_Result_Apply_Success is the successful-apply
top-level code. -/
def ADUC_Result_Apply_Success : Int := 700

/-- Modelled from the spec: result.h is not among the sources.
ADUC_Result_DeploymentInProgress_Success is the positive code stored when a
deployment-in-progress report is produced with no explicit result. -/
def ADUC_Result_DeploymentInProgress_Success : Int := 603

/-! ## Field names (update_content.h constants used by the serializer) -/

def ADUCITF_FIELDNAME_RESULTCODE : String := "resultCode"

def ADUCITF_FIELDNAME_EXTENDEDRESULTCODE : String := "extendedResultCode"

def ADUCITF_FIELDNAME_RESULTDETAILS : String := "resultDetails"

def ADUCITF_FIELDNAME_LASTINSTALLRESULT : String := "lastInstallResult"

def ADUCITF_FIELDNAME_STEPRESULTS : String := "stepResults"

def ADUCITF_FIELDNAME_STATE : String := "state"

def ADUCITF_FIELDNAME_WORKFLOW : String := "workflow"

def ADUCITF_FIELDNAME_ACTION : String := "action"

def ADUCITF_FIELDNAME_ID : String := "id"

def ADUCITF_FIELDNAME_RETRYTIMESTAMP : String := "retryTimestamp"

def ADUCITF_FIELDNAME_INSTALLEDUPDATEID : String := "installedUpdateId"

def ADUCITF_FIELDNAME_COMPAT_PROPERTY_NAMES : String := "compatPropertyNames"

def ADUCITF_FIELDNAME_DEVICEPROPERTIES : String := "deviceProperties"

/-! ## Reporting serializer (adu_core_interface.c) -/

/-- _json_object_set_update_result: sets resultCode, extendedResultCode and
resultDetails (the string, or JSON null when the details are NULL) on an
object. -/
def _json_object_set_update_result (object : Json) (resultCode extendedResultCode : Int)
    (resultDetails : Option String) : Json :=
  let o := object.objSet ADUCITF_FIELDNAME_RESULTCODE (.num resultCode)
  let o := o.objSet ADUCITF_FIELDNAME_EXTENDEDRESULTCODE (.num extendedResultCode)
  match resultDetails with
  | some d => o.objSet ADUCITF_FIELDNAME_RESULTDETAILS (.str d)
  | none => o.objSet ADUCITF_FIELDNAME_RESULTDETAILS .null

/-- set_workflow_properties: action and id always; retryTimestamp only when
it is neither NULL nor empty. -/
def set_workflow_properties (workflowValue : Json) (updateAction : ADUCITF_UpdateAction)
    (workflowId : String) (retryTimestamp : Option String) : Json :=
  let w := workflowValue.objSet ADUCITF_FIELDNAME_ACTION (.num (actionCode updateAction))
  let w := w.objSet ADUCITF_FIELDNAME_ID (.str workflowId)
  if IsNullOrEmpty retryTimestamp then w
  else w.objSet ADUCITF_FIELDNAME_RETRYTIMESTAMP (.str (retryTimestamp.getD ""))

/-- UpdateLastInstallResult: replaces resultCode and extendedResultCode
inside the lastInstallResult object of an already-built reporting document;
fails (JSONFailure, modelled as none) when the document is not an object or
has no lastInstallResult object. -/
def UpdateLastInstallResult (rootValue : Json) (result : ADUC_Result) : Option Json :=
  match rootValue with
  | .obj rootFields =>
      match getKey rootFields ADUCITF_FIELDNAME_LASTINSTALLRESULT with
      | some (.obj lastInstallFields) =>
          let updated :=
            setKey
              (setKey lastInstallFields ADUCITF_FIELDNAME_RESULTCODE (.num result.ResultCode))
              ADUCITF_FIELDNAME_EXTENDEDRESULTCODE (.num result.ExtendedResultCode)
          some (.obj (setKey rootFields ADUCITF_FIELDNAME_LASTINSTALLRESULT (.obj updated)))
      | _ => none
  | _ => none

/-- The child steps behind a workflow handle (empty on a NULL handle), in
the order the reporting loop visits them. -/
def workflow_steps : Option Workflow → List WorkflowStep
  | some w => w.steps
  | none => []

/-- One entry of the stepResults map, as the loop at the end of
GetReportingJsonValue builds it from the child's result and details. -/
def stepResultEntry (s : WorkflowStep) : Json :=
  _json_object_set_update_result (Json.obj []) s.result.ResultCode s.result.ExtendedResultCode
    s.resultDetails

/-- The stepResults object as populated by the loop at the end of
GetReportingJsonValue: the loop is skipped entirely for DownloadStarted;
otherwise it appends one "step_" ++ index entry per child, in index order
(the C builds the key with STRING_construct_sprintf in ASCII decimal). -/
def stepResultsPopulated (handle : Option Workflow) (updateState : ADUCITF_State) : Json :=
  if updateState = .DownloadStarted then Json.obj []
  else
    Json.obj ((workflow_steps handle).enum.map fun p =>
      ("step_" ++ toString p.1, stepResultEntry p.2))

/-- The root result GetReportingJsonValue reports: the result parameter
when given, the workflow's stored result otherwise. -/
def rootResultOf (handle : Option Workflow) (result : Option ADUC_Result) : ADUC_Result :=
  match result with
  | some r => r
  | none => workflow_get_result handle

/-- The stepResults part of lastInstallResult (lines 638-658 of the C):
cleared to null for DownloadStarted and DeploymentInProgress, attached (and
populated by the loop) when there is at least one step otherwise, absent
when there are no steps. -/
def lastInstallResultBase (handle : Option Workflow) (updateState : ADUCITF_State) : Json :=
  if updateState = .DownloadStarted ∨ updateState = .DeploymentInProgress then
    (Json.obj []).objSet ADUCITF_FIELDNAME_STEPRESULTS .null
  else if workflow_get_children_count handle > 0 then
    (Json.obj []).objSet ADUCITF_FIELDNAME_STEPRESULTS (stepResultsPopulated handle updateState)
  else Json.obj []

/-- The complete lastInstallResult object of a reported document: the
stepResults part, then the root result codes and the workflow's result
details. -/
def reportedLastInstallResult (handle : Option Workflow) (updateState : ADUCITF_State)
    (rootResult : ADUC_Result) : Json :=
  _json_object_set_update_result (lastInstallResultBase handle updateState)
    rootResult.ResultCode rootResult.ExtendedResultCode (workflow_peek_result_details handle)

/-- GetReportingJsonValue: builds the reported document
`lastInstallResult, state, workflow (when an id is set), installedUpdateId
(when given)`. In the C, the empty stepResults object is attached to
lastInstallResult before the loop populates it through the same reference;
the value-level embedding attaches the populated object, which is the same
final document. -/
def GetReportingJsonValue (workflowData : ADUC_WorkflowData) (updateState : ADUCITF_State)
    (result : Option ADUC_Result) (installedUpdateId : Option String) : Json :=
  let handle := workflowData.WorkflowHandle
  let root := (Json.obj []).objSet ADUCITF_FIELDNAME_LASTINSTALLRESULT
    (reportedLastInstallResult handle updateState (rootResultOf handle result))
  let root := root.objSet ADUCITF_FIELDNAME_STATE (.num (stateCode updateState))
  let root :=
    if IsNullOrEmpty (workflow_get_id handle) then root
    else
      root.objSet ADUCITF_FIELDNAME_WORKFLOW
        (set_workflow_properties (Json.obj [])
          (ADUC_WorkflowData_GetCurrentAction workflowData)
          ((workflow_get_id handle).getD "")
          (workflow_peek_retryTimestamp handle))
  match installedUpdateId with
  | some s => root.objSet ADUCITF_FIELDNAME_INSTALLEDUPDATEID (.str s)
  | none => root

/-! ## Twin transport and acknowledgement (adu_core_interface.c) -/

/-- PNP_STATUS_SUCCESS from pnp_protocol.h: the HTTP-style 200 success code
(the spec's section 6 calls 2xx success). -/
def PNP_STATUS_SUCCESS : Int := 200

/-- ReportClientJsonProperty: fails when the client handle is not
registered, otherwise succeeds exactly when the transport send succeeds
(`registered` models g_iotHubClientHandleForADUComponent being non-NULL and
`sendOk` the IOTHUB_CLIENT_OK outcome of ClientHandle_SendReportedState). -/
def ReportClientJsonProperty (registered : Bool) (sendOk : Bool) : Bool :=
  if !registered then false else sendOk

/-- Modelled from the spec: AgentOrchestration_ShouldNotReportToCloud
(agent_orchestration.c is not among the sources). Per section 4.7 only
internal intra-phase states are filtered; every state of the section 3
reported-state enum, which is all this model has, is emitted. -/
def AgentOrchestration_ShouldNotReportToCloud (_updateState : ADUCITF_State) : Bool :=
  false

/-- Modelled from the spec: a desired document is malformed when it is not
a JSON object or misses a required field such as workflowId (sections 4.1
and 8 scenario S5). -/
def desiredDocMalformed (doc : Json) : Bool :=
  match doc with
  | .obj fields => (getKey fields "workflowId").isNone
  | _ => true

/-- Modelled from the spec: ADUC_Workflow_HandlePropertyUpdate
(agent_workflow.c is not among the sources). A malformed document is logged
and causes no state change and no persistence write; a well-formed one has
its desired action recorded and drives the state machine, which may write
persistence. Returns the updated workflow data and whether a persistence
write occurred. -/
def ADUC_Workflow_HandlePropertyUpdate (workflowData : ADUC_WorkflowData) (doc : Json) :
    ADUC_WorkflowData × Bool :=
  if desiredDocMalformed doc then (workflowData, false)
  else
    let action :=
      match doc.objGet ADUCITF_FIELDNAME_ACTION with
      | some (.num a) => if a = actionCode .Cancel then ADUCITF_UpdateAction.Cancel
                         else ADUCITF_UpdateAction.ApplyDeployment
      | _ => workflowData.CurrentAction
    ({ workflowData with CurrentAction := action }, true)

/-- The acknowledgement OrchestratorUpdateCallback sends back: the PnP
status, the desired document's version, and the reflected (redacted)
payload. -/
structure OrchestratorAck where
  status : Int
  version : Int
  value : Json

/-- Everything observable about one OrchestratorUpdateCallback invocation. -/
structure OrchestratorOutcome where
  ack : OrchestratorAck
  workflowData : ADUC_WorkflowData
  persistenceWritten : Bool

/-- OrchestratorUpdateCallback: serializes the incoming desired document,
redacts updateManifestSignature and fileUrls on the object (parson
json_object_set_null adds or overwrites the key with null; when the value
is not an object the ack payload stays NULL, serialized as null), hands the
unredacted document to ADUC_Workflow_HandlePropertyUpdate, and acks with
PNP_STATUS_SUCCESS and the property version. -/
def OrchestratorUpdateCallback (workflowData : ADUC_WorkflowData) (propertyValue : Json)
    (propertyVersion : Int) : OrchestratorOutcome :=
  let ackValue : Json :=
    match propertyValue with
    | .obj fields =>
        .obj (setKey (setKey fields "updateManifestSignature" .null) "fileUrls" .null)
    | _ => .null
  let handled := ADUC_Workflow_HandlePropertyUpdate workflowData propertyValue
  { ack := { status := PNP_STATUS_SUCCESS, version := propertyVersion, value := ackValue }
    workflowData := handled.1
    persistenceWritten := handled.2 }

/-! ## State-and-result reporting (adu_core_interface.c) -/

/-- What one call of ReportStateAndResultAsync leaves behind: its boolean
return, the document handed to ReportClientJsonProperty (none when no
report was attempted), and the workflow data after the call. -/
structure ReportResult where
  success : Bool
  attempted : Option Json
  workflowData : ADUC_WorkflowData

/-- The document a report call handed to the transport (null when no send
was attempted). -/
def ReportResult.attemptedDoc (r : ReportResult) : Json :=
  r.attempted.getD .null

/-- AzureDeviceUpdateCoreInterface_ReportStateAndResultAsync: filters by
AgentOrchestration_ShouldNotReportToCloud, stores a DeploymentInProgress
success result on the workflow when called with no result in that state,
then either patches the persisted reporting document (startup-idle path,
non-NULL persistenceState) or builds a fresh one, and sends it. The C
dereferences the NULL result pointer on the persistence path when no result
is given; that path, never taken by the agent, is modelled as a failed
report. -/
def AzureDeviceUpdateCoreInterface_ReportStateAndResultAsync (registered : Bool)
    (workflowData : ADUC_WorkflowData) (updateState : ADUCITF_State)
    (result : Option ADUC_Result) (installedUpdateId : Option String) (sendOk : Bool) :
    ReportResult :=
  if !registered then
    { success := false, attempted := none, workflowData := workflowData }
  else if AgentOrchestration_ShouldNotReportToCloud updateState then
    { success := true, attempted := none, workflowData := workflowData }
  else
    let workflowData :=
      if result.isNone ∧ updateState = .DeploymentInProgress then
        { workflowData with
          WorkflowHandle := workflow_set_result workflowData.WorkflowHandle
            { ResultCode := ADUC_Result_DeploymentInProgress_Success, ExtendedResultCode := 0 } }
      else workflowData
    match workflowData.persistenceState with
    | some persistence =>
        match result with
        | some r =>
            match UpdateLastInstallResult persistence.ReportingJson r with
            | some rootValue =>
                if ReportClientJsonProperty registered sendOk then
                  { success := true, attempted := some rootValue, workflowData := workflowData }
                else
                  { success := false, attempted := some rootValue, workflowData := workflowData }
            | none =>
                { success := false, attempted := none, workflowData := workflowData }
        | none =>
            { success := false, attempted := none, workflowData := workflowData }
    | none =>
        let rootValue := GetReportingJsonValue workflowData updateState result installedUpdateId
        if ReportClientJsonProperty registered sendOk then
          { success := true, attempted := some rootValue, workflowData := workflowData }
        else
          { success := false, attempted := some rootValue, workflowData := workflowData }

/-- AzureDeviceUpdateCoreInterface_ReportUpdateIdAndIdleAsync: after a
successful apply, reports Idle with an ADUC_Result_Apply_Success result
(extended code 0) and the installed update id. -/
def AzureDeviceUpdateCoreInterface_ReportUpdateIdAndIdleAsync (registered : Bool)
    (workflowData : ADUC_WorkflowData) (updateId : String) (sendOk : Bool) : ReportResult :=
  if !registered then
    { success := false, attempted := none, workflowData := workflowData }
  else
    AzureDeviceUpdateCoreInterface_ReportStateAndResultAsync registered workflowData .Idle
      (some { ResultCode := ADUC_Result_Apply_Success, ExtendedResultCode := 0 })
      (some updateId) sendOk

/-- Modelled from the spec: the agent workflow's terminal success path
(agent_workflow.c is not among the sources) reports Idle through
ReportUpdateIdAndIdleAsync with the update id taken from the workflow's
installed criteria (section 8 property 2). -/
def ReportSuccessfulDeployment (workflowData : ADUC_WorkflowData) (sendOk : Bool) : ReportResult :=
  AzureDeviceUpdateCoreInterface_ReportUpdateIdAndIdleAsync true workflowData
    ((workflow_get_installed_criteria workflowData.WorkflowHandle).getD "") sendOk

/-! ## Startup message (startup_msg_helper.c, adu_core_interface.c) -/

/-- DEFAULT_COMPAT_PROPERTY_NAMES_VALUE from startup_msg_helper.c. -/
def DEFAULT_COMPAT_PROPERTY_NAMES_VALUE : String := "manufacturer,model"

/-- ADUC_ConfigInfo as StartupMsg_AddCompatPropertyNames reads it: only the
compatPropertyNames field (NULL when the configuration has none). -/
structure ADUC_ConfigInfo where
  compatPropertyNames : Option String

/-- StartupMsg_AddDeviceProperties: attaches the deviceProperties object
(manufacturer, model, interfaceId come from device_properties.c, which is
not among the sources; the built object is taken as a parameter). -/
def StartupMsg_AddDeviceProperties (startupObj : Json) (devicePropsValue : Json) : Json :=
  startupObj.objSet ADUCITF_FIELDNAME_DEVICEPROPERTIES devicePropsValue

/-- StartupMsg_AddCompatPropertyNames: loads the configuration
(ADUC_ConfigInfo_Init, from config_utils which is not among the sources,
modelled from the spec: it fills the zero-initialized struct on success and
leaves compatPropertyNames NULL on failure, which is only logged) and sets
compatPropertyNames to the configured string, or to the default
"manufacturer,model" when the configured one is NULL or empty. -/
def StartupMsg_AddCompatPropertyNames (startupObj : Json)
    (loadedConfig : Option ADUC_ConfigInfo) : Json :=
  let config : ADUC_ConfigInfo :=
    match loadedConfig with
    | some c => c
    | none => { compatPropertyNames := none }
  startupObj.objSet ADUCITF_FIELDNAME_COMPAT_PROPERTY_NAMES
    (.str (if IsNullOrEmpty config.compatPropertyNames then DEFAULT_COMPAT_PROPERTY_NAMES_VALUE
           else config.compatPropertyNames.getD ""))

/-- ReportStartupMsg: builds the startup message (deviceProperties, then
compatPropertyNames), serializes it and hands it to
ReportClientJsonProperty, whose return value the C discards before setting
success = true. Returns the C return value and the message it sent. -/
def ReportStartupMsg (registered : Bool) (devicePropsValue : Json)
    (loadedConfig : Option ADUC_ConfigInfo) (sendOk : Bool) : Bool × Option Json :=
  if !registered then (false, none)
  else
    let startupMsgObj := Json.obj []
    let startupMsgObj := StartupMsg_AddDeviceProperties startupMsgObj devicePropsValue
    let startupMsgObj := StartupMsg_AddCompatPropertyNames startupMsgObj loadedConfig
    let _sendOutcome := ReportClientJsonProperty registered sendOk
    (true, some startupMsgObj)

/-! ## Sample data for concrete witnesses -/

/-- A two-step workflow in the shape of the spec's S6 scenario. -/
def wfSample : Workflow :=
  { id := some "w1"
    retryTimestamp := some "t1"
    installedCriteria := some "v2"
    result := { ResultCode := -9, ExtendedResultCode := 7 }
    resultDetails := none
    steps :=
      [ { result := { ResultCode := 500, ExtendedResultCode := 0 }, resultDetails := none }
      , { result := { ResultCode := -9, ExtendedResultCode := 7 }, resultDetails := some "boom" } ] }

/-- Workflow data holding wfSample, with no persisted record. -/
def wdSample : ADUC_WorkflowData :=
  { WorkflowHandle := some wfSample
    CurrentAction := .ApplyDeployment
    LastReportedState := .Idle
    persistenceState := none }

/-- A persisted reporting document in the shape GetReportingJsonValue
produces for a no-step workflow. -/
def persistedDocSample : Json :=
  .obj
    [ (ADUCITF_FIELDNAME_LASTINSTALLRESULT,
        .obj [ (ADUCITF_FIELDNAME_RESULTCODE, .num 1)
             , (ADUCITF_FIELDNAME_EXTENDEDRESULTCODE, .num 0)
             , (ADUCITF_FIELDNAME_RESULTDETAILS, .null) ])
    , (ADUCITF_FIELDNAME_STATE, .num 0)
    , (ADUCITF_FIELDNAME_INSTALLEDUPDATEID, .str "v1") ]

/-- Workflow data restored on startup: wfSample plus the persisted
document. -/
def wdPersistSample : ADUC_WorkflowData :=
  { WorkflowHandle := some wfSample
    CurrentAction := .ApplyDeployment
    LastReportedState := .Idle
    persistenceState := some { ReportingJson := persistedDocSample } }

/-! ## Association-list lemmas -/

theorem getKey_setKey_self (l : List (String × Json)) (k : String) (v : Json) :
    getKey (setKey l k v) k = some v := by
  induction l with
  | nil => simp [getKey, setKey]
  | cons hd tl ih =>
      by_cases h : hd.1 = k
      · simp [getKey, setKey, h]
      · simp [getKey, setKey, h, ih]

theorem getKey_setKey_ne (l : List (String × Json)) (k k' : String) (v : Json)
    (h : k' ≠ k) : getKey (setKey l k v) k' = getKey l k' := by
  induction l with
  | nil => simp [getKey, setKey, Ne.symm h]
  | cons hd tl ih =>
      by_cases hk : hd.1 = k
      · simp [getKey, setKey, hk, h, Ne.symm h]
      · by_cases hk2 : hd.1 = k'
        · simp [getKey, setKey, hk, hk2, h]
        · simp [getKey, setKey, hk, hk2, ih]

/-! ## Structure of the reported document -/

theorem set_update_result_objGet_other (fields : List (String × Json))
    (rc erc : Int) (det : Option String) (k : String)
    (h1 : k ≠ ADUCITF_FIELDNAME_RESULTCODE) (h2 : k ≠ ADUCITF_FIELDNAME_EXTENDEDRESULTCODE)
    (h3 : k ≠ ADUCITF_FIELDNAME_RESULTDETAILS) :
    (_json_object_set_update_result (.obj fields) rc erc det).objGet k = getKey fields k := by
  unfold _json_object_set_update_result
  rcases det with _ | d <;>
    simp [Json.objSet, Json.objGet, getKey_setKey_ne _ _ _ _ h1, getKey_setKey_ne _ _ _ _ h2,
      getKey_setKey_ne _ _ _ _ h3]

theorem set_update_result_objGet_resultCode (fields : List (String × Json))
    (rc erc : Int) (det : Option String) :
    (_json_object_set_update_result (.obj fields) rc erc det).objGet
      ADUCITF_FIELDNAME_RESULTCODE = some (.num rc) := by
  unfold _json_object_set_update_result
  rcases det with _ | d <;>
    simp [Json.objSet, Json.objGet, ADUCITF_FIELDNAME_RESULTCODE,
      ADUCITF_FIELDNAME_EXTENDEDRESULTCODE, ADUCITF_FIELDNAME_RESULTDETAILS,
      getKey_setKey_ne, getKey_setKey_self]

theorem set_update_result_objGet_extendedResultCode (fields : List (String × Json))
    (rc erc : Int) (det : Option String) :
    (_json_object_set_update_result (.obj fields) rc erc det).objGet
      ADUCITF_FIELDNAME_EXTENDEDRESULTCODE = some (.num erc) := by
  unfold _json_object_set_update_result
  rcases det with _ | d <;>
    simp [Json.objSet, Json.objGet, ADUCITF_FIELDNAME_RESULTCODE,
      ADUCITF_FIELDNAME_EXTENDEDRESULTCODE, ADUCITF_FIELDNAME_RESULTDETAILS,
      getKey_setKey_ne, getKey_setKey_self]

theorem reportedLastInstallResult_objGet_stepResults (handle : Option Workflow)
    (updateState : ADUCITF_State) (rootResult : ADUC_Result) :
    (reportedLastInstallResult handle updateState rootResult).objGet
        ADUCITF_FIELDNAME_STEPRESULTS =
      if updateState = .DownloadStarted ∨ updateState = .DeploymentInProgress then some .null
      else if workflow_get_children_count handle > 0 then
        some (stepResultsPopulated handle updateState)
      else none := by
  unfold reportedLastInstallResult lastInstallResultBase
  have hne1 : ADUCITF_FIELDNAME_STEPRESULTS ≠ ADUCITF_FIELDNAME_RESULTCODE := by decide
  have hne2 : ADUCITF_FIELDNAME_STEPRESULTS ≠ ADUCITF_FIELDNAME_EXTENDEDRESULTCODE := by decide
  have hne3 : ADUCITF_FIELDNAME_STEPRESULTS ≠ ADUCITF_FIELDNAME_RESULTDETAILS := by decide
  by_cases hds : updateState = .DownloadStarted ∨ updateState = .DeploymentInProgress
  · simp [hds, Json.objSet, setKey,
      set_update_result_objGet_other _ _ _ _ _ hne1 hne2 hne3, getKey]
  · by_cases hc : workflow_get_children_count handle > 0
    · simp [hds, hc, Json.objSet, setKey,
        set_update_result_objGet_other _ _ _ _ _ hne1 hne2 hne3, getKey]
    · simp [hds, hc, set_update_result_objGet_other _ _ _ _ _ hne1 hne2 hne3, getKey]

theorem GetReportingJsonValue_objGet_lastInstallResult (workflowData : ADUC_WorkflowData)
    (updateState : ADUCITF_State) (result : Option ADUC_Result)
    (installedUpdateId : Option String) :
    (GetReportingJsonValue workflowData updateState result installedUpdateId).objGet
        ADUCITF_FIELDNAME_LASTINSTALLRESULT =
      some (reportedLastInstallResult workflowData.WorkflowHandle updateState
        (rootResultOf workflowData.WorkflowHandle result)) := by
  unfold GetReportingJsonValue
  by_cases hid : IsNullOrEmpty (workflow_get_id workflowData.WorkflowHandle) <;>
    rcases installedUpdateId with _ | s <;>
    simp [hid, Json.objSet, Json.objGet, setKey, getKey,
      ADUCITF_FIELDNAME_LASTINSTALLRESULT, ADUCITF_FIELDNAME_STATE,
      ADUCITF_FIELDNAME_WORKFLOW, ADUCITF_FIELDNAME_INSTALLEDUPDATEID]

theorem GetReportingJsonValue_objGet_state (workflowData : ADUC_WorkflowData)
    (updateState : ADUCITF_State) (result : Option ADUC_Result)
    (installedUpdateId : Option String) :
    (GetReportingJsonValue workflowData updateState result installedUpdateId).objGet
        ADUCITF_FIELDNAME_STATE = some (.num (stateCode updateState)) := by
  unfold GetReportingJsonValue
  by_cases hid : IsNullOrEmpty (workflow_get_id workflowData.WorkflowHandle) <;>
    rcases installedUpdateId with _ | s <;>
    simp [hid, Json.objSet, Json.objGet, setKey, getKey,
      ADUCITF_FIELDNAME_LASTINSTALLRESULT, ADUCITF_FIELDNAME_STATE,
      ADUCITF_FIELDNAME_WORKFLOW, ADUCITF_FIELDNAME_INSTALLEDUPDATEID]

theorem GetReportingJsonValue_objGet_workflow (workflowData : ADUC_WorkflowData)
    (updateState : ADUCITF_State) (result : Option ADUC_Result)
    (installedUpdateId : Option String) :
    (GetReportingJsonValue workflowData updateState result installedUpdateId).objGet
        ADUCITF_FIELDNAME_WORKFLOW =
      if IsNullOrEmpty (workflow_get_id workflowData.WorkflowHandle) then none
      else
        some (set_workflow_properties (Json.obj [])
          (ADUC_WorkflowData_GetCurrentAction workflowData)
          ((workflow_get_id workflowData.WorkflowHandle).getD "")
          (workflow_peek_retryTimestamp workflowData.WorkflowHandle)) := by
  unfold GetReportingJsonValue
  by_cases hid : IsNullOrEmpty (workflow_get_id workflowData.WorkflowHandle) <;>
    rcases installedUpdateId with _ | s <;>
    simp [hid, Json.objSet, Json.objGet, setKey, getKey,
      ADUCITF_FIELDNAME_LASTINSTALLRESULT, ADUCITF_FIELDNAME_STATE,
      ADUCITF_FIELDNAME_WORKFLOW, ADUCITF_FIELDNAME_INSTALLEDUPDATEID]

theorem GetReportingJsonValue_objGet_installedUpdateId (workflowData : ADUC_WorkflowData)
    (updateState : ADUCITF_State) (result : Option ADUC_Result)
    (installedUpdateId : Option String) :
    (GetReportingJsonValue workflowData updateState result installedUpdateId).objGet
        ADUCITF_FIELDNAME_INSTALLEDUPDATEID = installedUpdateId.map Json.str := by
  unfold GetReportingJsonValue
  by_cases hid : IsNullOrEmpty (workflow_get_id workflowData.WorkflowHandle) <;>
    rcases installedUpdateId with _ | s <;>
    simp [hid, Json.objSet, Json.objGet, setKey, getKey,
      ADUCITF_FIELDNAME_LASTINSTALLRESULT, ADUCITF_FIELDNAME_STATE,
      ADUCITF_FIELDNAME_WORKFLOW, ADUCITF_FIELDNAME_INSTALLEDUPDATEID]

theorem workflow_get_children_count_eq_steps_length (handle : Option Workflow) :
    workflow_get_children_count handle = (workflow_steps handle).length := by
  cases handle <;> rfl

/-! ## Claim theorems -/

/-- C1: For every reported document produced by GetReportingJsonValue, if
the reported state is DownloadStarted or DeploymentInProgress then
lastInstallResult.stepResults is null; for every other state, stepResults
is present exactly when the workflow's step count is greater than zero. -/
theorem C1_stepResults_null_or_present (workflowData : ADUC_WorkflowData)
    (updateState : ADUCITF_State) (result : Option ADUC_Result)
    (installedUpdateId : Option String) :
    ((updateState = .DownloadStarted ∨ updateState = .DeploymentInProgress) →
       (GetReportingJsonValue workflowData updateState result installedUpdateId).objGet2
         ADUCITF_FIELDNAME_LASTINSTALLRESULT ADUCITF_FIELDNAME_STEPRESULTS = some .null) ∧
    (¬(updateState = .DownloadStarted ∨ updateState = .DeploymentInProgress) →
       (((GetReportingJsonValue workflowData updateState result installedUpdateId).objGet2
           ADUCITF_FIELDNAME_LASTINSTALLRESULT ADUCITF_FIELDNAME_STEPRESULTS).isSome ↔
         workflow_get_children_count workflowData.WorkflowHandle > 0)) := by
  have hlir := GetReportingJsonValue_objGet_lastInstallResult workflowData updateState result
    installedUpdateId
  have hsr := reportedLastInstallResult_objGet_stepResults workflowData.WorkflowHandle
    updateState (rootResultOf workflowData.WorkflowHandle result)
  constructor
  · intro h
    simp [Json.objGet2, hlir, hsr, h]
  · intro h
    by_cases hc : workflow_get_children_count workflowData.WorkflowHandle > 0 <;>
      simp [Json.objGet2, hlir, hsr, h, hc]

/-- C1 witness: at a concrete workflow with two steps, DeploymentInProgress
clears stepResults to null while Failed reports a present stepResults. -/
theorem C1_stepResults_null_or_present_witness :
    (GetReportingJsonValue wdSample .DeploymentInProgress none none).objGet2
        ADUCITF_FIELDNAME_LASTINSTALLRESULT ADUCITF_FIELDNAME_STEPRESULTS = some .null ∧
    ((GetReportingJsonValue wdSample .Failed none none).objGet2
        ADUCITF_FIELDNAME_LASTINSTALLRESULT ADUCITF_FIELDNAME_STEPRESULTS).isSome = true := by
  constructor
  · exact (C1_stepResults_null_or_present wdSample .DeploymentInProgress none none).1
      (Or.inr rfl)
  · have h := ((C1_stepResults_null_or_present wdSample .Failed none none).2
      (by simp)).2 (by decide)
    simpa using h

/-- C4: In every reported document in which stepResults is populated, its
keys are exactly step_0 through step_(N-1) where N is the number of child
steps: contiguous, zero-based, ASCII decimal, no other punctuation. -/
theorem C4_stepResults_keys (workflowData : ADUC_WorkflowData)
    (updateState : ADUCITF_State) (result : Option ADUC_Result)
    (installedUpdateId : Option String) (entries : List (String × Json))
    (h : (GetReportingJsonValue workflowData updateState result installedUpdateId).objGet2
        ADUCITF_FIELDNAME_LASTINSTALLRESULT ADUCITF_FIELDNAME_STEPRESULTS =
      some (.obj entries)) :
    entries.map Prod.fst =
      (List.range (workflow_get_children_count workflowData.WorkflowHandle)).map
        (fun i => "step_" ++ toString i) := by
  have hlir := GetReportingJsonValue_objGet_lastInstallResult workflowData updateState result
    installedUpdateId
  have hsr := reportedLastInstallResult_objGet_stepResults workflowData.WorkflowHandle
    updateState (rootResultOf workflowData.WorkflowHandle result)
  rw [Json.objGet2, hlir] at h
  simp only [hsr] at h
  by_cases hds : updateState = .DownloadStarted ∨ updateState = .DeploymentInProgress
  · simp [hds] at h
  · by_cases hc : workflow_get_children_count workflowData.WorkflowHandle > 0
    · simp only [hds, if_false, hc, if_true, Option.some.injEq] at h
      have hnotds : ¬updateState = .DownloadStarted := fun hh => hds (Or.inl hh)
      rw [stepResultsPopulated, if_neg hnotds] at h
      injection h with hh
      subst hh
      rw [workflow_get_children_count_eq_steps_length,
        ← List.enum_map_fst (workflow_steps workflowData.WorkflowHandle),
        List.map_map, List.map_map]
      rfl
    · simp [hds, hc] at h

/-- C4 witness: the two-step sample workflow reports keys step_0, step_1. -/
theorem C4_stepResults_keys_witness :
    ([("step_0", stepResultEntry (wfSample.steps.get ⟨0, by decide⟩)),
      ("step_1", stepResultEntry (wfSample.steps.get ⟨1, by decide⟩))].map
        (Prod.fst (α := String) (β := Json)) : List String) =
      (List.range (workflow_get_children_count wdSample.WorkflowHandle)).map
        (fun i => "step_" ++ toString i) := by
  have h := C4_stepResults_keys wdSample .Failed none none
    [("step_0", stepResultEntry (wfSample.steps.get ⟨0, by decide⟩)),
     ("step_1", stepResultEntry (wfSample.steps.get ⟨1, by decide⟩))] (by rfl)
  exact h

/-- C8: the workflow object is present in the reported document (built by
set_workflow_properties with action, id and optional retryTimestamp)
exactly when the workflow has a workflow id; it is omitted exactly when the
id is unset (NULL or empty), as in a startup idle report with no
deployment. -/
theorem C8_workflow_omitted_iff_no_id (workflowData : ADUC_WorkflowData)
    (updateState : ADUCITF_State) (result : Option ADUC_Result)
    (installedUpdateId : Option String) :
    (((GetReportingJsonValue workflowData updateState result installedUpdateId).objGet
        ADUCITF_FIELDNAME_WORKFLOW = none) ↔
      IsNullOrEmpty (workflow_get_id workflowData.WorkflowHandle) = true) ∧
    (¬IsNullOrEmpty (workflow_get_id workflowData.WorkflowHandle) = true →
      (GetReportingJsonValue workflowData updateState result installedUpdateId).objGet
          ADUCITF_FIELDNAME_WORKFLOW =
        some (set_workflow_properties (Json.obj [])
          (ADUC_WorkflowData_GetCurrentAction workflowData)
          ((workflow_get_id workflowData.WorkflowHandle).getD "")
          (workflow_peek_retryTimestamp workflowData.WorkflowHandle))) := by
  rw [GetReportingJsonValue_objGet_workflow]
  by_cases hid : IsNullOrEmpty (workflow_get_id workflowData.WorkflowHandle) <;>
    simp [hid]

/-- C3: the acknowledgement payload sent back by OrchestratorUpdateCallback
never carries a non-null updateManifestSignature or fileUrls: on an object
payload each field is set to null before the ack is serialized, and a
non-object payload is acked as null, where neither field exists. -/
theorem C3_ack_redacts_signature_and_fileUrls (workflowData : ADUC_WorkflowData)
    (propertyValue : Json) (propertyVersion : Int) :
    ((OrchestratorUpdateCallback workflowData propertyValue propertyVersion).ack.value.objGet
        "updateManifestSignature" = some .null ∨
      (OrchestratorUpdateCallback workflowData propertyValue propertyVersion).ack.value.objGet
        "updateManifestSignature" = none) ∧
    ((OrchestratorUpdateCallback workflowData propertyValue propertyVersion).ack.value.objGet
        "fileUrls" = some .null ∨
      (OrchestratorUpdateCallback workflowData propertyValue propertyVersion).ack.value.objGet
        "fileUrls" = none) := by
  have hne : ("updateManifestSignature" : String) ≠ "fileUrls" := by decide
  cases propertyValue <;>
    simp [OrchestratorUpdateCallback, Json.objGet, getKey_setKey_self,
      getKey_setKey_ne _ _ _ _ hne]

/-- C2 counterexample: a desired document missing workflowId (malformed) is
acknowledged with status 200 (PNP_STATUS_SUCCESS), which lies in the 2xx
success range; the acknowledgement does not carry a failure status as the
claim asserts. -/
theorem C2_counterexample_ack_is_success :
    desiredDocMalformed (Json.obj [("action", .num 3)]) = true ∧
    (OrchestratorUpdateCallback wdSample (Json.obj [("action", .num 3)]) 7).ack.status = 200 ∧
    ¬((OrchestratorUpdateCallback wdSample (Json.obj [("action", .num 3)]) 7).ack.status < 200 ∨
      (OrchestratorUpdateCallback wdSample (Json.obj [("action", .num 3)]) 7).ack.status ≥ 300) := by
  refine ⟨rfl, rfl, by decide⟩

/-- C2 amended: for every malformed desired document the error is logged
inside the property-update handler and the acknowledgement carries the
success status PNP_STATUS_SUCCESS (200) — not a failure status — together
with the desired document's version number, and no state transition or
persistence write occurs. -/
theorem C2_malformed_ack_and_no_transition (workflowData : ADUC_WorkflowData) (doc : Json)
    (version : Int) (h : desiredDocMalformed doc = true) :
    (OrchestratorUpdateCallback workflowData doc version).ack.status = PNP_STATUS_SUCCESS ∧
    (OrchestratorUpdateCallback workflowData doc version).ack.version = version ∧
    (OrchestratorUpdateCallback workflowData doc version).workflowData = workflowData ∧
    (OrchestratorUpdateCallback workflowData doc version).persistenceWritten = false := by
  refine ⟨rfl, rfl, ?_, ?_⟩ <;>
    simp [OrchestratorUpdateCallback, ADUC_Workflow_HandlePropertyUpdate, h]

/-- C2 witness: the amended behaviour at a concrete malformed document
(an empty object, missing workflowId). -/
theorem C2_malformed_ack_and_no_transition_witness :
    (OrchestratorUpdateCallback wdSample (Json.obj []) 7).ack.status = PNP_STATUS_SUCCESS ∧
    (OrchestratorUpdateCallback wdSample (Json.obj []) 7).ack.version = 7 ∧
    (OrchestratorUpdateCallback wdSample (Json.obj []) 7).workflowData = wdSample ∧
    (OrchestratorUpdateCallback wdSample (Json.obj []) 7).persistenceWritten = false :=
  C2_malformed_ack_and_no_transition wdSample (Json.obj []) 7 (by rfl)

/-- C5 counterexample: with a null result in state DeploymentInProgress, a
failed send still leaves the workflow's stored result changed to the
DeploymentInProgress success code — the engine state is not unchanged by
the failed reporting attempt, although the call does return false. -/
theorem C5_counterexample_result_mutated :
    (AzureDeviceUpdateCoreInterface_ReportStateAndResultAsync true wdSample
        .DeploymentInProgress none none false).success = false ∧
    workflow_get_result (AzureDeviceUpdateCoreInterface_ReportStateAndResultAsync true wdSample
        .DeploymentInProgress none none false).workflowData.WorkflowHandle ≠
      workflow_get_result wdSample.WorkflowHandle := by
  constructor
  · rfl
  · decide

/-- C5 amended: when the transport send fails, ReportStateAndResultAsync
returns false and does not advance the state machine — the last reported
state, current action and persisted record are untouched — and the
workflow (with its stored result) is unchanged, except that a call with a
null result in state DeploymentInProgress stores the DeploymentInProgress
success result on the workflow before attempting the send, a write that
survives the failure. -/
theorem C5_send_failure_frame (workflowData : ADUC_WorkflowData)
    (updateState : ADUCITF_State) (result : Option ADUC_Result)
    (installedUpdateId : Option String) :
    (AzureDeviceUpdateCoreInterface_ReportStateAndResultAsync true workflowData updateState
        result installedUpdateId false).success = false ∧
    (AzureDeviceUpdateCoreInterface_ReportStateAndResultAsync true workflowData updateState
        result installedUpdateId false).workflowData.LastReportedState =
      workflowData.LastReportedState ∧
    (AzureDeviceUpdateCoreInterface_ReportStateAndResultAsync true workflowData updateState
        result installedUpdateId false).workflowData.CurrentAction =
      workflowData.CurrentAction ∧
    (AzureDeviceUpdateCoreInterface_ReportStateAndResultAsync true workflowData updateState
        result installedUpdateId false).workflowData.persistenceState =
      workflowData.persistenceState ∧
    (¬(result = none ∧ updateState = .DeploymentInProgress) →
      (AzureDeviceUpdateCoreInterface_ReportStateAndResultAsync true workflowData updateState
          result installedUpdateId false).workflowData.WorkflowHandle =
        workflowData.WorkflowHandle) ∧
    ((result = none ∧ updateState = .DeploymentInProgress) →
      (AzureDeviceUpdateCoreInterface_ReportStateAndResultAsync true workflowData updateState
          result installedUpdateId false).workflowData.WorkflowHandle =
        workflow_set_result workflowData.WorkflowHandle
          { ResultCode := ADUC_Result_DeploymentInProgress_Success,
            ExtendedResultCode := 0 }) := by
  unfold AzureDeviceUpdateCoreInterface_ReportStateAndResultAsync
  rcases result with _ | r <;>
    by_cases hdip : updateState = ADUCITF_State.DeploymentInProgress <;>
    rcases hps : workflowData.persistenceState with _ | persistence <;>
    simp [AgentOrchestration_ShouldNotReportToCloud, ReportClientJsonProperty, hdip, hps] <;>
    split <;> simp_all

theorem lastInstallResultBase_isObj (handle : Option Workflow) (updateState : ADUCITF_State) :
    ∃ fields, lastInstallResultBase handle updateState = .obj fields := by
  unfold lastInstallResultBase
  split
  · exact ⟨_, rfl⟩
  · split
    · exact ⟨_, rfl⟩
    · exact ⟨_, rfl⟩

theorem GetReportingJsonValue_objGet2_resultCode (workflowData : ADUC_WorkflowData)
    (updateState : ADUCITF_State) (result : Option ADUC_Result)
    (installedUpdateId : Option String) :
    (GetReportingJsonValue workflowData updateState result installedUpdateId).objGet2
        ADUCITF_FIELDNAME_LASTINSTALLRESULT ADUCITF_FIELDNAME_RESULTCODE =
      some (.num (rootResultOf workflowData.WorkflowHandle result).ResultCode) := by
  obtain ⟨fields, hf⟩ := lastInstallResultBase_isObj workflowData.WorkflowHandle updateState
  simp [Json.objGet2, GetReportingJsonValue_objGet_lastInstallResult,
    reportedLastInstallResult, hf, set_update_result_objGet_resultCode]

theorem GetReportingJsonValue_objGet2_extendedResultCode (workflowData : ADUC_WorkflowData)
    (updateState : ADUCITF_State) (result : Option ADUC_Result)
    (installedUpdateId : Option String) :
    (GetReportingJsonValue workflowData updateState result installedUpdateId).objGet2
        ADUCITF_FIELDNAME_LASTINSTALLRESULT ADUCITF_FIELDNAME_EXTENDEDRESULTCODE =
      some (.num (rootResultOf workflowData.WorkflowHandle result).ExtendedResultCode) := by
  obtain ⟨fields, hf⟩ := lastInstallResultBase_isObj workflowData.WorkflowHandle updateState
  simp [Json.objGet2, GetReportingJsonValue_objGet_lastInstallResult,
    reportedLastInstallResult, hf, set_update_result_objGet_extendedResultCode]

theorem ReportStateAndResultAsync_some_result_no_persistence (workflowData : ADUC_WorkflowData)
    (updateState : ADUCITF_State) (r : ADUC_Result) (installedUpdateId : Option String)
    (sendOk : Bool) (hps : workflowData.persistenceState = none) :
    AzureDeviceUpdateCoreInterface_ReportStateAndResultAsync true workflowData updateState
        (some r) installedUpdateId sendOk =
      { success := sendOk
        attempted := some (GetReportingJsonValue workflowData updateState (some r)
          installedUpdateId)
        workflowData := workflowData } := by
  unfold AzureDeviceUpdateCoreInterface_ReportStateAndResultAsync
  cases sendOk <;>
    simp [AgentOrchestration_ShouldNotReportToCloud, hps, ReportClientJsonProperty]

/-- C6: when a persistenceState is set on the workflow data (startup-idle
reporting), the document sent is the persisted ReportingJson with only the
lastInstallResult resultCode and extendedResultCode replaced by the
just-computed outcome; every other field of the persisted document, at the
root and inside lastInstallResult, is unchanged. -/
theorem C6_persisted_report_frame (workflowData : ADUC_WorkflowData)
    (updateState : ADUCITF_State) (r : ADUC_Result) (installedUpdateId : Option String)
    (persistence : WorkflowPersistenceState) (rootFields lirFields : List (String × Json))
    (sendOk : Bool)
    (hps : workflowData.persistenceState = some persistence)
    (hroot : persistence.ReportingJson = .obj rootFields)
    (hlir : getKey rootFields ADUCITF_FIELDNAME_LASTINSTALLRESULT = some (.obj lirFields)) :
    (AzureDeviceUpdateCoreInterface_ReportStateAndResultAsync true workflowData updateState
        (some r) installedUpdateId sendOk).success = sendOk ∧
    ((AzureDeviceUpdateCoreInterface_ReportStateAndResultAsync true workflowData updateState
        (some r) installedUpdateId sendOk).attempted).isSome = true ∧
    (AzureDeviceUpdateCoreInterface_ReportStateAndResultAsync true workflowData updateState
        (some r) installedUpdateId sendOk).attemptedDoc.objGet2
        ADUCITF_FIELDNAME_LASTINSTALLRESULT ADUCITF_FIELDNAME_RESULTCODE =
      some (.num r.ResultCode) ∧
    (AzureDeviceUpdateCoreInterface_ReportStateAndResultAsync true workflowData updateState
        (some r) installedUpdateId sendOk).attemptedDoc.objGet2
        ADUCITF_FIELDNAME_LASTINSTALLRESULT ADUCITF_FIELDNAME_EXTENDEDRESULTCODE =
      some (.num r.ExtendedResultCode) ∧
    (∀ k, k ≠ ADUCITF_FIELDNAME_RESULTCODE → k ≠ ADUCITF_FIELDNAME_EXTENDEDRESULTCODE →
      (AzureDeviceUpdateCoreInterface_ReportStateAndResultAsync true workflowData updateState
          (some r) installedUpdateId sendOk).attemptedDoc.objGet2
          ADUCITF_FIELDNAME_LASTINSTALLRESULT k =
        persistence.ReportingJson.objGet2 ADUCITF_FIELDNAME_LASTINSTALLRESULT k) ∧
    (∀ k, k ≠ ADUCITF_FIELDNAME_LASTINSTALLRESULT →
      (AzureDeviceUpdateCoreInterface_ReportStateAndResultAsync true workflowData updateState
          (some r) installedUpdateId sendOk).attemptedDoc.objGet k =
        persistence.ReportingJson.objGet k) := by
  have hrep : AzureDeviceUpdateCoreInterface_ReportStateAndResultAsync true workflowData
      updateState (some r) installedUpdateId sendOk =
    { success := sendOk
      attempted := some (.obj (setKey rootFields ADUCITF_FIELDNAME_LASTINSTALLRESULT
        (.obj (setKey
          (setKey lirFields ADUCITF_FIELDNAME_RESULTCODE (.num r.ResultCode))
          ADUCITF_FIELDNAME_EXTENDEDRESULTCODE (.num r.ExtendedResultCode)))))
      workflowData := workflowData } := by
    unfold AzureDeviceUpdateCoreInterface_ReportStateAndResultAsync
    cases sendOk <;>
      simp [AgentOrchestration_ShouldNotReportToCloud, hps, ReportClientJsonProperty,
        UpdateLastInstallResult, hroot, hlir]
  have hrcne : ADUCITF_FIELDNAME_RESULTCODE ≠ ADUCITF_FIELDNAME_EXTENDEDRESULTCODE := by decide
  refine ⟨by simp [hrep], by simp [hrep], ?_, ?_, ?_, ?_⟩
  · simp [hrep, ReportResult.attemptedDoc, Json.objGet2, Json.objGet, getKey_setKey_self,
      getKey_setKey_ne _ _ _ _ hrcne]
  · simp [hrep, ReportResult.attemptedDoc, Json.objGet2, Json.objGet, getKey_setKey_self]
  · intro k hk1 hk2
    simp [hrep, ReportResult.attemptedDoc, Json.objGet2, Json.objGet, hroot,
      getKey_setKey_self, getKey_setKey_ne _ _ _ _ hk1, getKey_setKey_ne _ _ _ _ hk2, hlir]
  · intro k hk
    simp [hrep, ReportResult.attemptedDoc, Json.objGet, hroot,
      getKey_setKey_ne _ _ _ _ hk]

/-- C6 witness: the concrete persisted document has its result codes
replaced (1 to 700) while its state field is untouched. -/
theorem C6_persisted_report_frame_witness :
    (AzureDeviceUpdateCoreInterface_ReportStateAndResultAsync true wdPersistSample .Idle
        (some { ResultCode := 700, ExtendedResultCode := 0 }) none true).attemptedDoc.objGet2
        ADUCITF_FIELDNAME_LASTINSTALLRESULT ADUCITF_FIELDNAME_RESULTCODE =
      some (.num 700) ∧
    (AzureDeviceUpdateCoreInterface_ReportStateAndResultAsync true wdPersistSample .Idle
        (some { ResultCode := 700, ExtendedResultCode := 0 }) none true).attemptedDoc.objGet
        ADUCITF_FIELDNAME_STATE =
      persistedDocSample.objGet ADUCITF_FIELDNAME_STATE := by
  have h := C6_persisted_report_frame wdPersistSample .Idle
    { ResultCode := 700, ExtendedResultCode := 0 } none { ReportingJson := persistedDocSample }
    [ (ADUCITF_FIELDNAME_LASTINSTALLRESULT,
        .obj [ (ADUCITF_FIELDNAME_RESULTCODE, .num 1)
             , (ADUCITF_FIELDNAME_EXTENDEDRESULTCODE, .num 0)
             , (ADUCITF_FIELDNAME_RESULTDETAILS, .null) ])
    , (ADUCITF_FIELDNAME_STATE, .num 0)
    , (ADUCITF_FIELDNAME_INSTALLEDUPDATEID, .str "v1") ]
    [ (ADUCITF_FIELDNAME_RESULTCODE, .num 1)
    , (ADUCITF_FIELDNAME_EXTENDEDRESULTCODE, .num 0)
    , (ADUCITF_FIELDNAME_RESULTDETAILS, .null) ]
    true rfl rfl (by rfl)
  exact ⟨h.2.2.1, h.2.2.2.2.2 ADUCITF_FIELDNAME_STATE (by decide)⟩

/-- C7: installedUpdateId appears in a reported document only when an
update id is passed, which (with no persisted record, the normal deployment
path) only ReportUpdateIdAndIdleAsync does: it reports state Idle with the
successful apply result (ADUC_Result_Apply_Success, extended code 0) and
installedUpdateId equal to the given id; the modelled successful-deployment
caller passes the workflow's installed criteria as that id. -/
theorem C7_installedUpdateId_success_idle (workflowData : ADUC_WorkflowData)
    (updateId : String) (updateState : ADUCITF_State) (result : Option ADUC_Result)
    (hps : workflowData.persistenceState = none) :
    ((GetReportingJsonValue workflowData updateState result none).objGet
        ADUCITF_FIELDNAME_INSTALLEDUPDATEID = none) ∧
    ((AzureDeviceUpdateCoreInterface_ReportUpdateIdAndIdleAsync true workflowData updateId
        true).attemptedDoc.objGet ADUCITF_FIELDNAME_STATE =
      some (.num (stateCode .Idle)) ∧
     (AzureDeviceUpdateCoreInterface_ReportUpdateIdAndIdleAsync true workflowData updateId
        true).attemptedDoc.objGet ADUCITF_FIELDNAME_INSTALLEDUPDATEID =
      some (.str updateId) ∧
     (AzureDeviceUpdateCoreInterface_ReportUpdateIdAndIdleAsync true workflowData updateId
        true).attemptedDoc.objGet2 ADUCITF_FIELDNAME_LASTINSTALLRESULT
        ADUCITF_FIELDNAME_RESULTCODE = some (.num ADUC_Result_Apply_Success) ∧
     (AzureDeviceUpdateCoreInterface_ReportUpdateIdAndIdleAsync true workflowData updateId
        true).attemptedDoc.objGet2 ADUCITF_FIELDNAME_LASTINSTALLRESULT
        ADUCITF_FIELDNAME_EXTENDEDRESULTCODE = some (.num 0) ∧
     (AzureDeviceUpdateCoreInterface_ReportUpdateIdAndIdleAsync true workflowData updateId
        true).success = true) ∧
    ((ReportSuccessfulDeployment workflowData true).attemptedDoc.objGet
        ADUCITF_FIELDNAME_INSTALLEDUPDATEID =
      some (.str ((workflow_get_installed_criteria workflowData.WorkflowHandle).getD ""))) := by
  have hrep : ∀ uid : String,
      AzureDeviceUpdateCoreInterface_ReportUpdateIdAndIdleAsync true workflowData uid true =
        { success := true
          attempted := some (GetReportingJsonValue workflowData .Idle
            (some { ResultCode := ADUC_Result_Apply_Success, ExtendedResultCode := 0 })
            (some uid))
          workflowData := workflowData } := by
    intro uid
    unfold AzureDeviceUpdateCoreInterface_ReportUpdateIdAndIdleAsync
    simpa using ReportStateAndResultAsync_some_result_no_persistence workflowData .Idle
      { ResultCode := ADUC_Result_Apply_Success, ExtendedResultCode := 0 } (some uid) true hps
  refine ⟨?_, ⟨?_, ?_, ?_, ?_, ?_⟩, ?_⟩
  · simpa using GetReportingJsonValue_objGet_installedUpdateId workflowData updateState
      result none
  · simp [hrep, ReportResult.attemptedDoc, GetReportingJsonValue_objGet_state]
  · simp [hrep, ReportResult.attemptedDoc, GetReportingJsonValue_objGet_installedUpdateId]
  · simp [hrep, ReportResult.attemptedDoc, GetReportingJsonValue_objGet2_resultCode,
      rootResultOf]
  · simp [hrep, ReportResult.attemptedDoc, GetReportingJsonValue_objGet2_extendedResultCode,
      rootResultOf]
  · simp [hrep]
  · unfold ReportSuccessfulDeployment
    simp [hrep, ReportResult.attemptedDoc, GetReportingJsonValue_objGet_installedUpdateId]

/-- C7 witness: for the concrete sample workflow (installed criteria "v2"),
the idle report carries installedUpdateId "v2" and the Idle state. -/
theorem C7_installedUpdateId_success_idle_witness :
    (AzureDeviceUpdateCoreInterface_ReportUpdateIdAndIdleAsync true wdSample "v2"
        true).attemptedDoc.objGet ADUCITF_FIELDNAME_INSTALLEDUPDATEID =
      some (.str "v2") ∧
    (ReportSuccessfulDeployment wdSample true).attemptedDoc.objGet
        ADUCITF_FIELDNAME_INSTALLEDUPDATEID = some (.str "v2") := by
  have h := C7_installedUpdateId_success_idle wdSample "v2" .Failed none rfl
  exact ⟨h.2.1.2.1, h.2.2⟩

/-- C9: the startup message's compatPropertyNames is the configured value
when the configuration provides a non-empty one, and the default
"manufacturer,model" otherwise — including when configuration loading
fails. -/
theorem C9_compatPropertyNames_default_or_config (devicePropsValue : Json)
    (loadedConfig : Option ADUC_ConfigInfo) (sendOk : Bool) :
    (∀ s : String, s ≠ "" → loadedConfig = some { compatPropertyNames := some s } →
      ((ReportStartupMsg true devicePropsValue loadedConfig sendOk).2.getD .null).objGet
          ADUCITF_FIELDNAME_COMPAT_PROPERTY_NAMES = some (.str s)) ∧
    ((loadedConfig = none ∨ loadedConfig = some { compatPropertyNames := none } ∨
        loadedConfig = some { compatPropertyNames := some "" }) →
      ((ReportStartupMsg true devicePropsValue loadedConfig sendOk).2.getD .null).objGet
          ADUCITF_FIELDNAME_COMPAT_PROPERTY_NAMES =
        some (.str DEFAULT_COMPAT_PROPERTY_NAMES_VALUE)) := by
  constructor
  · intro s hs hc
    subst hc
    simp [ReportStartupMsg, StartupMsg_AddDeviceProperties, StartupMsg_AddCompatPropertyNames,
      IsNullOrEmpty, hs, Json.objSet, Json.objGet, setKey, getKey,
      ADUCITF_FIELDNAME_COMPAT_PROPERTY_NAMES, ADUCITF_FIELDNAME_DEVICEPROPERTIES]
  · intro hc
    rcases hc with hc | hc | hc <;> subst hc <;>
      simp [ReportStartupMsg, StartupMsg_AddDeviceProperties, StartupMsg_AddCompatPropertyNames,
        IsNullOrEmpty, Json.objSet, Json.objGet, setKey, getKey,
        ADUCITF_FIELDNAME_COMPAT_PROPERTY_NAMES, ADUCITF_FIELDNAME_DEVICEPROPERTIES]

/-- C9 witness: with a failed configuration load the startup message
carries the default names; with a configured non-empty value it carries
that value. -/
theorem C9_compatPropertyNames_witness :
    ((ReportStartupMsg true (Json.obj []) none true).2.getD .null).objGet
        ADUCITF_FIELDNAME_COMPAT_PROPERTY_NAMES =
      some (.str DEFAULT_COMPAT_PROPERTY_NAMES_VALUE) ∧
    ((ReportStartupMsg true (Json.obj [])
        (some { compatPropertyNames := some "a,b" }) true).2.getD .null).objGet
        ADUCITF_FIELDNAME_COMPAT_PROPERTY_NAMES = some (.str "a,b") := by
  refine ⟨(C9_compatPropertyNames_default_or_config (Json.obj []) none true).2 (Or.inl rfl), ?_⟩
  exact (C9_compatPropertyNames_default_or_config (Json.obj [])
    (some { compatPropertyNames := some "a,b" }) true).1 "a,b" (by decide) rfl

/-- C10: ReportStartupMsg returns true whenever the startup message was
successfully constructed, whether or not the send succeeds: the return
value of ReportClientJsonProperty is discarded, so a transport failure of
the startup report is invisible to the caller. -/
theorem C10_startup_report_ignores_send_failure (devicePropsValue : Json)
    (loadedConfig : Option ADUC_ConfigInfo) (sendOk : Bool) :
    (ReportStartupMsg true devicePropsValue loadedConfig sendOk).1 = true ∧
    (ReportStartupMsg true devicePropsValue loadedConfig false).1 =
      (ReportStartupMsg true devicePropsValue loadedConfig true).1 := by
  constructor <;> rfl

end ADUC
